/-
Verification of bwypy/core.py (BookwormPython): a shallow embedding of the
query model, result expansion and presentation steps, with theorems checking
the natural-language specification against the code.

Conventions of the embedding:
* Python values occurring in query specs and records are modelled by `PyVal`
  (strings, integers, lists, None).  Python dicts are association lists with
  insertion-order semantics (`pyDictSet` / `pyDict` model `dict.__setitem__`
  and the `dict(pairs)` constructor: last value wins, first position kept).
* The server's nested JSON response is `BWNode`: either a leaf list of counts
  or a mapping from bucket value to sub-node.
* Fallible Python code (KeyError, TypeError, NameError, AttributeError,
  IndexError) is modelled with `Except PyErr` / `Option`.
-/
import Mathlib

namespace Bwypy

/-- A Python value as used by the library (query specs, records, globals). -/
inductive PyVal where
  | pnone : PyVal
  | str : String → PyVal
  | num : Int → PyVal
  | list : List PyVal → PyVal

/-- Python exceptions raised by the code paths we model. -/
inductive PyErr where
  | keyError : String → PyErr
  | typeError : String → PyErr
  | nameError : String → PyErr
  deriving DecidableEq, Repr

abbrev Pair := String × PyVal
abbrev Rec := List Pair

/-- `d[k] = v` on a Python dict (string keys, any value type): replace in
place if the key exists (keeping its position), otherwise append. -/
def pyDictSet {α : Type} (d : List (String × α)) (k : String) (v : α) :
    List (String × α) :=
  if d.any (fun p => p.1 = k) then
    d.map (fun p => if p.1 = k then (k, v) else p)
  else d ++ [(k, v)]

/-- `dict(pairs)`: build a Python dict from an ordered list of pairs. -/
def pyDict {α : Type} (l : List (String × α)) : List (String × α) :=
  l.foldl (fun d p => pyDictSet d p.1 p.2) []

/-- `d.update(other)` on a Python dict. -/
def pyDictUpdate {α : Type} (d other : List (String × α)) : List (String × α) :=
  other.foldl (fun acc p => pyDictSet acc p.1 p.2) d

/-- `d[k]` lookup on a Python dict (keys are unique in a real dict, so the
first match is the match). -/
def pyDictGet {α : Type} (d : List (String × α)) (k : String) : Option α :=
  (d.find? (fun p => p.1 = k)).map (fun p => p.2)

/-- `k in d` on a Python dict. -/
def pyDictHas {α : Type} (d : List (String × α)) (k : String) : Bool :=
  d.any (fun p => p.1 = k)

/-- `del d[k]` guarded by `try ... except: pass` (as in
`limited_field_values`): remove the key if present, no-op otherwise. -/
def pyDictDelSafe {α : Type} (d : List (String × α)) (k : String) :
    List (String × α) :=
  d.filter (fun p => p.1 ≠ k)

/-- Python truthiness for the values we model (`if database:` etc.). -/
def pyTruthy : PyVal → Bool
  | .pnone => false
  | .str s => s ≠ ""
  | .num n => n ≠ 0
  | .list l => !l.isEmpty

/-- The server's nested response: a leaf list of count values, or a mapping
from a facet's bucket value to the sub-response. -/
inductive BWNode where
  | leaf : List Int → BWNode
  | node : List (String × BWNode) → BWNode

/-- The leaf step of `BWResults._expand`:
`for i, val in enumerate(o): counttype = counttypes[i]; l += [(counttype, val)]`.
Pairs each value positionally with a count-type name; `counttypes[i]` raises
IndexError (modelled as `none`) when the values outnumber the count types. -/
def pairCounts : List String → List PyVal → Option (List Pair)
  | _, [] => some []
  | [], _ :: _ => none
  | c :: cs, v :: vs => (pairCounts cs vs).map (fun l => (c, v) :: l)

mutual

/-- `BWResults._expand(o, grouplist, counttypes, collector)`, the recursive
flattening of the nested response (core.py lines 747-767), with the collector
passed explicitly (the Python default argument is the empty list; see the
heap-level model below for the default-object semantics).
Base case (`grouplist` empty): `o` is enumerated — positionally over its count
values when it is a list, over its keys when it is (unexpectedly) a dict, just
as Python `enumerate` would — and one record `dict(collector + l)` is emitted.
Recursive case: `o.items()` is walked in order (AttributeError, i.e. `none`,
when `o` is a list), recursing with `collector + [(grouplist[0], k)]`. -/
def _expand (o : BWNode) (grouplist : List String) (counttypes : List String)
    (collector : List Pair) : Option (List Rec) :=
  match grouplist with
  | [] =>
    let vals : List PyVal :=
      match o with
      | .leaf cs => cs.map (fun n => PyVal.num n)
      | .node ch => ch.map (fun p => PyVal.str p.1)
    (pairCounts counttypes vals).map (fun l => [pyDict (collector ++ l)])
  | g :: gs =>
    match o with
    | .leaf _ => none
    | .node ch => _expandItems ch g gs counttypes collector

/-- The `for k, v in o.items(): ... l += self._expand(v, grouplist[1:],
counttypes, collector + [item])` loop of `_expand`, concatenating the
recursive results in the mapping's iteration order. -/
def _expandItems (ch : List (String × BWNode)) (g : String) (gs : List String)
    (counttypes : List String) (collector : List Pair) : Option (List Rec) :=
  match ch with
  | [] => some []
  | (k, v) :: rest => do
    let l1 ← _expand v gs counttypes (collector ++ [(g, PyVal.str k)])
    let l2 ← _expandItems rest g gs counttypes collector
    pure (l1 ++ l2)

end

/-- `BWResults` state: the stored raw response, the (already listified and
`*`-stripped) group names, the count-type names and the dtype map
(core.py lines 262-276). -/
structure BWResultsState where
  _json : BWNode
  groups : List String
  counttype : List String
  dtypes : List (String × String)

/-- A query value that may be a single string or a list of strings (Python is
dynamically typed here; `BWResults.__init__` listifies both `groups` and
`counttype`). -/
inductive StrOrList where
  | str : String → StrOrList
  | list : List String → StrOrList

/-- `if type(x) is list: ... else: [x]` as in `BWResults.__init__`. -/
def listify : StrOrList → List String
  | .str s => [s]
  | .list l => l

/-- `g.lstrip("*")`: strip all leading `*` characters. -/
def lstripStar (s : String) : String :=
  String.mk (s.data.dropWhile (fun c => c = '*'))

/-- `BWResults.__init__(results, query, dtypes)`: listify the query's groups
and counttype, strip leading `*` from the group names. -/
def mkBWResults (results : BWNode) (qgroups qcounttype : StrOrList)
    (dtypes : List (String × String)) : BWResultsState :=
  { _json := results
    groups := (listify qgroups).map lstripStar
    counttype := listify qcounttype
    dtypes := dtypes }

/-- `'data' in self._json`: key membership when the response is a dict, plain
(int-element) membership — hence `False` for the string `'data'` — when it is
a list. -/
def hasDataKey : BWNode → Bool
  | .leaf _ => false
  | .node ch => ch.any (fun p => p.1 = "data")

/-- `self._json['data']` (only evaluated under `hasDataKey`). -/
def dataValue : BWNode → Option BWNode
  | .leaf _ => none
  | .node ch => (ch.find? (fun p => p.1 = "data")).map (fun p => p.2)

/-- `BWResults.tolist` (core.py lines 739-745): expand `self._json['data']`
when the stored response still carries the `data` wrapper, else expand the
stored response itself. -/
def tolist (st : BWResultsState) : Option (List Rec) :=
  if hasDataKey st._json then
    match dataValue st._json with
    | some d => _expand d st.groups st.counttype []
    | none => none
  else
    _expand st._json st.groups st.counttype []

/-- No duplicate elements (executable). -/
def nodupB : List String → Bool
  | [] => true
  | x :: xs => !xs.contains x && nodupB xs

mutual

/-- A raw response is well shaped for `n` levels of grouping and `c` count
types when it nests mappings for exactly `n` levels (with distinct bucket
keys at each level, as any decoded JSON object has) and every leaf is a list
of exactly `c` counts (spec §3 RawResponse). -/
def wellShapedB : BWNode → Nat → Nat → Bool
  | .leaf cs, 0, c => cs.length = c
  | .leaf _, _ + 1, _ => false
  | .node _, 0, _ => false
  | .node ch, n + 1, c => nodupB (ch.map Prod.fst) && wellShapedChildrenB ch n c

/-- All children well shaped at depth `n`. -/
def wellShapedChildrenB : List (String × BWNode) → Nat → Nat → Bool
  | [], _, _ => true
  | (_, v) :: rest, n, c => wellShapedB v n c && wellShapedChildrenB rest n c

end

mutual

/-- The number of leaves of a response, i.e. the number of distinct
group-value paths reachable in it. -/
def countLeaves : BWNode → Nat
  | .leaf _ => 1
  | .node ch => countLeavesChildren ch

/-- Sum of the leaf counts of the children. -/
def countLeavesChildren : List (String × BWNode) → Nat
  | [] => 0
  | (_, v) :: rest => countLeaves v + countLeavesChildren rest

end

/-! ## The presentation layer: a model of the pandas operations in
`BWResults.frame` (core.py lines 278-717).

A DataFrame built from a list of record dicts is modelled by its ordered
column names and its rows; a cell is `Option PyVal`, `none` standing for the
NaN that pandas fills in for a missing key.  After `set_index` a frame keeps
(index values, data values) per row. -/

abbrev Cell := Option PyVal

/-- Column names of `pd.DataFrame(records)`: keys in order of first
appearance across the records. -/
def dfColumns (recs : List Rec) : List String :=
  recs.foldl (fun acc r => acc ++ ((r.map Prod.fst).filter (fun k => !acc.contains k))) []

/-- A pandas DataFrame with default integer index: ordered columns, rows of
cells (`none` = NaN). -/
structure DFrame where
  cols : List String
  rows : List (List Cell)

/-- `pd.DataFrame(records)` for a list of record dicts. -/
def dfFromRecords (recs : List Rec) : DFrame :=
  let cols := dfColumns recs
  { cols := cols
    rows := recs.map (fun r => cols.map (fun c => pyDictGet r c)) }

/-- `pd.to_numeric` on one cell: numbers pass, numeric strings parse, NaN
passes, anything else raises (modelled `none`). -/
def toNumericCell : Cell → Option Cell
  | some (.num n) => some (some (.num n))
  | some (.str s) => (s.toInt?).map (fun n => some (PyVal.num n))
  | none => some none
  | some v => some (some v)

/-- The dtype-coercion loop of `frame`: `integer` columns go through
`pd.to_numeric`; `datetime` columns go through `pd.to_datetime`, an external
pandas collaborator that the spec excludes from scope (§1) — no claim
exercises it, and already-parsed values are kept as-is here; other dtypes are
left untouched. -/
def coerceColumns (dtypes : List (String × String)) (df : DFrame) : Option DFrame := do
  let newRows ← dtypes.foldlM (fun rows kv =>
    match kv with
    | (k, ty) =>
      if df.cols.contains k ∧ ty = "integer" then
        rows.mapM (fun row =>
          (row.zip df.cols).mapM (fun cv =>
            if cv.2 = k then toNumericCell cv.1 else some cv.1))
      else some rows) df.rows
  pure { cols := df.cols, rows := newRows }

/-- The fixed blacklist of unknown/unspecified sentinel strings used by
`drop_unknowns`. -/
def unknownBlacklist : List String :=
  ["No place, unknown, or undetermined", "", " ", "Unknown", "unknown",
   "Unknown or not specified", "No attempt to code", "Undetermined", "|||",
   "???", "N/A", "und", "unk"]

/-- `df[~df.T.isin(blacklist).any()]`: drop every row one of whose cells is a
blacklisted string. -/
def dropUnknownRows (df : DFrame) : DFrame :=
  { cols := df.cols
    rows := df.rows.filter (fun row =>
      !row.any (fun c =>
        match c with
        | some (.str s) => unknownBlacklist.contains s
        | _ => false)) }

/-- `df.replace({col: {code: label}})` restricted to one column mapping:
replace exact string matches. -/
def replaceCell (table : List (String × String)) (c : Cell) : Cell :=
  match c with
  | some (.str s) =>
    match table.find? (fun p => p.1 = s) with
    | some p => some (.str p.2)
    | none => c
  | _ => c

/-- The code → human-readable-label substitution step of `frame`: every
column named by the controlled-vocabulary map has its values replaced through
that facet's lookup table. -/
def replaceColumns (mapping : List (String × List (String × String)))
    (df : DFrame) : DFrame :=
  { cols := df.cols
    rows := df.rows.map (fun row =>
      (row.zip df.cols).map (fun cv =>
        match mapping.find? (fun m => m.1 = cv.2) with
        | some m => replaceCell m.2 cv.1
        | none => cv.1)) }

/-- A DataFrame after `set_index`: per row, the index values and the data
values (an empty index models the default range index, whose claims-relevant
behaviour is only carrying the rows in order). -/
structure IFrame where
  indexNames : List String
  dataCols : List String
  rows : List (List Cell × List Cell)

/-- `df.set_index(groups)`: move the group columns into the index, keeping
the remaining columns in their original order.  KeyError (`none`) if a group
column is absent. -/
def setIndex (df : DFrame) (groups : List String) : Option IFrame := do
  let _ ← groups.mapM (fun g => if df.cols.contains g then some () else none)
  let dataCols := df.cols.filter (fun c => !groups.contains c)
  let rows ← df.rows.mapM (fun row =>
    let cells := row.zip df.cols
    do
      let idx ← groups.mapM (fun g => (cells.find? (fun cv => cv.2 = g)).map Prod.fst)
      pure (idx, (cells.filter (fun cv => !groups.contains cv.2)).map Prod.fst))
  pure { indexNames := groups, dataCols := dataCols, rows := rows }

/-- `df[cols]` column selection (no index set). -/
def selectColumns (df : DFrame) (cols : List String) : Option IFrame := do
  let _ ← cols.mapM (fun c => if df.cols.contains c then some () else none)
  let rows ← df.rows.mapM (fun row =>
    let cells := row.zip df.cols
    do
      let vals ← cols.mapM (fun c => (cells.find? (fun cv => cv.2 = c)).map Prod.fst)
      pure (([] : List Cell), vals))
  pure { indexNames := [], dataCols := cols, rows := rows }

/-- Insert into a sorted list, before the first element `x` may precede
(`le x y` = "x may come before y"); keeps insertion order among ties, so the
sort built on it is stable. -/
def insertSorted {α : Type} (le : α → α → Bool) (x : α) : List α → List α
  | [] => [x]
  | y :: ys => if le x y then x :: y :: ys else y :: insertSorted le x ys

/-- A stable structural sort (insertion sort), standing in for the library
sorts (`np.setdiff1d`'s ascending sort, pandas `sort_values`' stable
lexsort): only the ordering and stability of the output are relied on. -/
def pySort {α : Type} (le : α → α → Bool) : List α → List α
  | [] => []
  | x :: xs => insertSorted le x (pySort le xs)

/-- pandas ordering on the cell values the sorted columns hold (numbers by
value, strings lexicographically; a comparison across kinds raises in pandas
and no claim exercises one — kinds are ranked here to keep the function
total). -/
def cellCmp (a b : Cell) : Ordering :=
  match a, b with
  | some (.num x), some (.num y) => compare x y
  | some (.str x), some (.str y) => compare x y
  | some (.num _), some (.str _) => .lt
  | some (.str _), some (.num _) => .gt
  | some _, _ => .gt
  | none, some _ => .lt
  | none, none => .eq

/-- Lexicographic comparison of sort keys. -/
def keyCmp : List Cell → List Cell → Ordering
  | [], [] => .eq
  | [], _ :: _ => .lt
  | _ :: _, [] => .gt
  | a :: as, b :: bs =>
    match cellCmp a b with
    | .eq => keyCmp as bs
    | o => o

/-- `frame.sort_values(by, ascending=False)`: stable sort of the rows,
descending lexicographically in the named (data) columns; KeyError (`none`)
if a sort column is missing. -/
def sortValuesDesc (fr : IFrame) (by_ : List String) : Option IFrame := do
  let positions ← by_.mapM (fun c => fr.dataCols.indexOf? c)
  let key := fun (row : List Cell × List Cell) => positions.map (fun i => row.2.getD i none)
  pure { fr with rows := pySort (fun r1 r2 => keyCmp (key r1) (key r2) ≠ .lt) fr.rows }

/-- `(df2.T != 0).any()` row filter of `drop_zeros`: keep rows one of whose
data cells differs from `0` (strings and NaN compare unequal to `0`, as in
pandas). -/
def cellNeZero : Cell → Bool
  | some (.num n) => n ≠ 0
  | _ => true

/-- `df2[(df2.T != 0).any()]`. -/
def dropZeroRows (fr : IFrame) : IFrame :=
  { fr with rows := fr.rows.filter (fun row => row.2.any cellNeZero) }

/-- The controlled-vocabulary code-to-label tables inlined in `frame`
(core.py lines 297-695), reproduced verbatim.  Note: in the source the
`htsource` entry for `WAU` is missing a trailing comma (line 684), a
syntax slip; the evidently intended entry list is used here. -/
def map_to_human_readable : List (String × List (String × String)) :=
  [("genres",
     [("http://id.loc.gov/vocabulary/marcgt/bib", "bibliography"),
      ("http://id.loc.gov/vocabulary/marcgt/gov", "government publication"),
      ("http://id.loc.gov/vocabulary/marcgt/fic", "fiction"),
      ("http://id.loc.gov/vocabulary/marcgt/bio", "biography"),
      ("http://id.loc.gov/vocabulary/marcgt/sta", "statistics"),
      ("http://id.loc.gov/vocabulary/marcgt/cpb", "conference publication"),
      ("http://id.loc.gov/vocabulary/marcgt/cat", "catalog"),
      ("http://id.loc.gov/vocabulary/marcgt/aut", "autobiography"),
      ("http://id.loc.gov/vocabulary/marcgt/dir", "directory"),
      ("http://id.loc.gov/vocabulary/marcgt/dic", "dictionary"),
      ("http://id.loc.gov/vocabulary/marcgt/leg", "legislation"),
      ("http://id.loc.gov/vocabulary/marcgt/law", "law report or digest"),
      ("http://id.loc.gov/vocabulary/marcgt/rev", "review"),
      ("http://id.loc.gov/vocabulary/marcgt/ind", "index"),
      ("http://id.loc.gov/vocabulary/marcgt/abs", "abstract or summary"),
      ("http://id.loc.gov/vocabulary/marcgt/han", "handbook"),
      ("http://id.loc.gov/vocabulary/marcgt/fes", "festschrift"),
      ("http://id.loc.gov/vocabulary/marcgt/enc", "encyclopedia"),
      ("http://id.loc.gov/vocabulary/marcgt/yea", "yearbook"),
      ("http://id.loc.gov/vocabulary/marcgt/ter", "technical report"),
      ("http://id.loc.gov/vocabulary/marcgt/the", "thesis"),
      ("http://id.loc.gov/vocabulary/marcgt/lea", "legal article"),
      ("http://id.loc.gov/vocabulary/marcgt/lec", "legal case and case notes"),
      ("http://id.loc.gov/vocabulary/marcgt/sur", "survey of literature"),
      ("http://id.loc.gov/vocabulary/marcmuscomp/sg", "Songs"),
      ("http://id.loc.gov/vocabulary/marcgt/dis", "discography"),
      ("http://id.loc.gov/vocabulary/marcmuscomp/co", "Concertos"),
      ("http://id.loc.gov/vocabulary/marcmuscomp/sn", "Sonatas"),
      ("http://id.loc.gov/vocabulary/marcgt/fil", "filmography"),
      ("http://id.loc.gov/vocabulary/marcmuscomp/sy", "Symphonies"),
      ("http://id.loc.gov/vocabulary/marcmuscomp/ms", "Masses"),
      ("http://id.loc.gov/vocabulary/marcmuscomp/op", "Operas"),
      ("http://id.loc.gov/vocabulary/marcmuscomp/zz", "Other"),
      ("http://id.loc.gov/vocabulary/marcmuscomp/df", "Dance forms"),
      ("http://id.loc.gov/vocabulary/marcmuscomp/vr", "Variations"),
      ("http://id.loc.gov/vocabulary/marcmuscomp/fg", "Fugues"),
      ("http://id.loc.gov/vocabulary/marcmuscomp/ct", "Cantatas"),
      ("http://id.loc.gov/vocabulary/marcmuscomp/mo", "Motets"),
      ("http://id.loc.gov/vocabulary/marcmuscomp/ft", "Fantasias"),
      ("http://id.loc.gov/vocabulary/marcmuscomp/or", "Oratorios"),
      ("http://id.loc.gov/vocabulary/marcmuscomp/su", "Suites"),
      ("http://id.loc.gov/vocabulary/marcmuscomp/pr", "Preludes"),
      ("http://id.loc.gov/vocabulary/marcmuscomp/ov", "Overtures"),
      ("http://id.loc.gov/vocabulary/marcgt/tre", "treaty"),
      ("http://id.loc.gov/vocabulary/marcmuscomp/mr", "Marches"),
      ("http://id.loc.gov/vocabulary/marcgt/pro", "programmed text"),
      ("http://id.loc.gov/vocabulary/marcmuscomp/dv", "Divertimentos, serenades, cassations, divertissements, and notturni"),
      ("http://id.loc.gov/vocabulary/marcmuscomp/rd", "Rondos"),
      ("https://id.nlm.nih.gov/mesh/D020492", "Periodical (MeSH)"),
      ("http://id.loc.gov/authorities/genreForms/gf2014026139.", "Periodical (LCGFT)"),
      ("http://id.loc.gov/vocabulary/marcmuscomp/rq", "Requiems"),
      ("http://id.loc.gov/vocabulary/marcmuscomp/cn", "Canons and rounds"),
      ("http://id.loc.gov/vocabulary/marcmuscomp/bt", "Ballets"),
      ("http://id.loc.gov/vocabulary/marcmuscomp/wz", "Waltzes"),
      ("http://id.loc.gov/vocabulary/marcmuscomp/fm", "Folk music"),
      ("http://id.loc.gov/vocabulary/marcmuscomp/md", "Madrigals"),
      ("http://id.loc.gov/vocabulary/marcgt/map", "map"),
      ("http://id.loc.gov/vocabulary/marcmuscomp/nc", "Nocturnes"),
      ("http://id.loc.gov/vocabulary/marcmuscomp/pt", "Part-songs"),
      ("http://id.loc.gov/vocabulary/marcmuscomp/hy", "Hymns"),
      ("http://id.loc.gov/vocabulary/marcmuscomp/pm", "Passion music"),
      ("http://id.loc.gov/vocabulary/marcgt/atl", "atlas"),
      ("http://id.loc.gov/vocabulary/marcmuscomp/mi", "Minuets"),
      ("http://id.loc.gov/vocabulary/marcmuscomp/tc", "Toccatas"),
      ("https://id.nlm.nih.gov/mesh/D020504", "Abstracts (MeSH)"),
      ("http://id.loc.gov/vocabulary/marcgt/stp", "standard or specification"),
      ("http://id.loc.gov/vocabulary/marcmuscomp/ts", "Trio-sonatas"),
      ("http://id.loc.gov/authorities/genreForms/gf2011026723", "Video recordings"),
      ("http://id.loc.gov/vocabulary/marcmuscomp/ch", "Chorales"),
      ("http://id.loc.gov/vocabulary/marcmuscomp/st", "Studies and exercises"),
      ("http://id.loc.gov/vocabulary/marcgt/com", "computer program"),
      ("http://id.loc.gov/vocabulary/marcmuscomp/cg", "Concerti grossi"),
      ("http://id.loc.gov/vocabulary/marcmuscomp/cp", "Chansons, polyphonic"),
      ("http://id.loc.gov/vocabulary/marcmuscomp/an", "Anthems"),
      ("http://id.loc.gov/vocabulary/marcmuscomp/po", "Polonaises"),
      ("http://id.loc.gov/vocabulary/marcmuscomp/cl", "Chorale preludes"),
      ("http://id.loc.gov/vocabulary/marcgt/vid", "videorecording"),
      ("http://id.loc.gov/authorities/genreForms/gf2014026909", "Librettos"),
      ("http://id.loc.gov/vocabulary/marcmuscomp/mz", "Mazurkas"),
      ("http://id.loc.gov/vocabulary/marcmuscomp/cc", "Chant, Christian"),
      ("http://id.loc.gov/vocabulary/marcmuscomp/ps", "Passacaglias"),
      ("http://id.loc.gov/vocabulary/marcgt/cgn", "comic or graphic novel"),
      ("http://id.loc.gov/vocabulary/marcmuscomp/sp", "Symphonic poems"),
      ("http://id.loc.gov/vocabulary/marcgt/num", "numeric data"),
      ("http://id.loc.gov/vocabulary/marcmuscomp/pp", "Popular music"),
      ("http://id.loc.gov/authorities/genreForms/gf2014026110.", "Humor"),
      ("http://id.loc.gov/vocabulary/marcmuscomp/cz", "Canzonas"),
      ("http://id.worldcat.org/fast/fst01411641", "Periodicals (FAST)"),
      ("http://id.loc.gov/vocabulary/marcmuscomp/pv", "Pavans")]),
   ("languages",
     [("eng", "English"),
      ("ger", "German"),
      ("fre", "French"),
      ("spa", "Spanish"),
      ("rus", "Russian"),
      ("chi", "Chinese"),
      ("jpn", "Japanese"),
      ("ita", "Italian"),
      ("por", "Portuguese"),
      ("lat", "Latin"),
      ("ara", "Arabic"),
      ("und", "Undetermined"),
      ("dut", "Dutch"),
      ("pol", "Polish"),
      ("swe", "Swedish"),
      ("heb", "Hebrew"),
      ("dan", "Danish"),
      ("kor", "Korean"),
      ("cze", "Czech"),
      ("hin", "Hindi"),
      ("ind", "Indonesian"),
      ("hun", "Hungarian"),
      ("mul", "Multiple languages"),
      ("nor", "Norwegian"),
      ("tur", "Turkish"),
      ("scr", "Croatian"),
      ("zxx", "No linguistic content"),
      ("urd", "Urdu"),
      ("tha", "Thai"),
      ("gre", "Greek, Modern (1453-)"),
      ("per", "Persian"),
      ("grc", "Greek, Ancient (to 1453)"),
      ("san", "Sanskrit"),
      ("tam", "Tamil"),
      ("ukr", "Ukrainian"),
      ("bul", "Bulgarian"),
      ("scc", "Serbian"),
      ("rum", "Romanian"),
      ("ben", "Bengali"),
      ("vie", "Vietnamese"),
      ("fin", "Finnish"),
      ("arm", "Armenian"),
      ("cat", "Catalan"),
      ("slo", "Slovak"),
      ("slv", "Slovenian"),
      ("yid", "Yiddish"),
      ("mar", "Marathi"),
      ("may", "Malay"),
      ("pan", "Panjabi"),
      ("afr", "Afrikaans"),
      ("tel", "Telugu"),
      ("ota", "Turkish, Ottoman"),
      ("tib", "Tibetan"),
      ("ice", "Icelandic"),
      ("mal", "Malayalam"),
      ("est", "Estonian"),
      ("bel", "Belarusian"),
      ("lit", "Lithuanian"),
      ("mac", "Macedonian"),
      ("lav", "Latvian"),
      ("nep", "Nepali"),
      ("uzb", "Uzbek"),
      ("wel", "Welsh"),
      ("kan", "Kannada"),
      ("geo", "Georgian"),
      ("guj", "Gujarati"),
      ("snh", "Sinhalese"),
      ("srp", "Serbian"),
      ("hrv", "Croatian (Discontinued Code)"),
      ("bur", "Burmese"),
      ("pli", "Pali"),
      ("kaz", "Kazakh"),
      ("tgl", "Tagalog"),
      ("aze", "Azerbaijani"),
      ("mon", "Mongolian"),
      ("jav", "Javanese"),
      ("iri", "Irish (Discontinued Code)"),
      ("hau", "Hausa"),
      ("fro", "French, Old (ca. 842-1300)"),
      ("swa", "Swahili"),
      ("map", "Austronesian (Other)"),
      ("gmh", "German, Middle High (ca. 1050-1500)"),
      ("syr", "Syriac, Modern"),
      ("raj", "Rajasthani"),
      ("ori", "Oriya"),
      ("alb", "Albanian"),
      ("sla", "Slavic (Other)"),
      ("enm", "English, Middle (1100-1500)"),
      ("arc", "Aramaic"),
      ("pra", "Prakrit languages"),
      ("sin", "Sinhalese"),
      ("chu", "Church Slavic"),
      ("ang", "English, Old (ca. 450-1100)"),
      ("gle", "Irish"),
      ("nic", "Niger-Kordofanian (Other)"),
      ("kir", "Kyrgyz"),
      ("frm", "French, Middle (ca. 1300-1600)"),
      ("tut", "Altaic (Other)"),
      ("roa", "Romance (Other)"),
      ("tag", "Tagalog (Discontinued Code)"),
      ("inc", "Indic (Other)"),
      ("tat", "Tatar"),
      ("myn", "Mayan languages"),
      ("tuk", "Turkmen"),
      ("sun", "Sundanese"),
      ("baq", "Basque"),
      ("sai", "South American Indian (Other)"),
      ("mai", "Maithili"),
      ("egy", "Egyptian"),
      ("akk", "Akkadian"),
      ("sit", "Sino-Tibetan (Other)"),
      ("que", "Quechua"),
      ("pro", "ProvenÃ§al (to 1500)"),
      ("cop", "Coptic"),
      ("int", "Interlingua (International Auxiliary Language Association) (Discontinued Code)"),
      ("yor", "Yoruba"),
      ("paa", "Papuan (Other)"),
      ("bra", "Braj"),
      ("new", "Newari"),
      ("pus", "Pushto"),
      ("amh", "Amharic"),
      ("bos", "Bosnian"),
      ("rom", "Romani"),
      ("gem", "Germanic (Other)"),
      ("fiu", "Finno-Ugrian (Other)"),
      ("mol", "Moldavian (Discontinued Code)"),
      ("roh", "Raeto-Romance"),
      ("fri", "Frisian (Discontinued Code)"),
      ("lao", "Lao"),
      ("snd", "Sindhi"),
      ("wen", "Sorbian (Other)"),
      ("nah", "Nahuatl"),
      ("bak", "Bashkir"),
      ("pal", "Pahlavi"),
      ("asm", "Assamese"),
      ("glg", "Galician"),
      ("cai", "Central American Indian (Other)"),
      ("gag", "Galician (Discontinued Code)"),
      ("uig", "Uighur"),
      ("tgk", "Tajik"),
      ("gae", "Scottish Gaelix (Discontinued Code)"),
      ("khm", "Khmer"),
      ("esp", "Esperanto (Discontinued Code)"),
      ("epo", "Esperanto"),
      ("gez", "Ethiopic"),
      ("bho", "Bhojpuri"),
      ("gla", "Scottish Gaelic"),
      ("kas", "Kashmiri"),
      ("som", "Somali"),
      ("nai", "North American Indian (Other)"),
      ("fry", "Frisian"),
      ("crp", "Creoles and Pidgins (Other)"),
      ("zul", "Zulu"),
      ("taj", "Tajik (Discontinued Code)"),
      ("mao", "Maori"),
      ("eth", "Ethiopic (Discontinued Code)"),
      ("tah", "Tahitian"),
      ("mis", "Miscellaneous languages"),
      ("lan", "Occitan (post 1500) (Discontinued Code)"),
      ("haw", "Hawaiian"),
      ("sna", "Shona"),
      ("cpf", "Creoles and Pidgins, French-based (Other)"),
      ("cau", "Caucasian (Other)"),
      ("jrb", "Judeo-Arabic"),
      ("kur", "Kurdish"),
      ("sot", "Sotho"),
      ("awa", "Awadhi"),
      ("bre", "Breton"),
      ("oci", "Occitan (post-1500)"),
      ("ban", "Balinese"),
      ("ibo", "Igbo"),
      ("lad", "Ladino"),
      ("mlg", "Malagasy"),
      ("goh", "German, Old High (ca. 750-1050)"),
      ("tsn", "Tswana"),
      ("sux", "Sumerian"),
      ("ber", "Berber (Other)"),
      ("doi", "Dogri"),
      ("gua", "Guarani (Discontinued Code)"),
      ("bnt", "Bantu (Other)"),
      ("esk", "Eskimo languages (Discontinued Code)"),
      ("kin", "Kinyarwanda"),
      ("mni", "Manipuri"),
      ("xho", "Xhosa"),
      ("ssa", "Nilo-Saharan (Other)"),
      ("aym", "Aymara"),
      ("ful", "Fula"),
      ("dum", "Dutch, Middle (ca. 1050-1350)"),
      ("tar", "Tatar (Discontinued Code)")]),
   ("digitization_agent_code",
     [("google", "Google (google)"),
      ("ia", "Internet Archive (ia)"),
      ("lit-dlps-dc", "Library IT, Digital Library Production Service, Digital Conversion (lit-dlps-dc)"),
      ("cornell-ms", "Cornell University (with support from Microsoft) (cornell-ms)"),
      ("yale", "Yale University (yale)"),
      ("berkeley", "University of California, Berkeley (berkeley)"),
      ("getty", "Getty Research Institute (getty)"),
      ("uiuc", "University of Illinois at Urbana-Champaign (uiuc)"),
      ("tamu", "Texas A&M (tamu)"),
      ("cornell", "Cornell University (cornell)"),
      ("northwestern", "Northwestern University (northwestern)"),
      ("yale2", "Yale University (yale2)"),
      ("borndigital", "Born Digital (placeholder) (borndigital)"),
      ("nnc", "Columbia University (nnc)"),
      ("geu", "Emory University (geu)"),
      ("princeton", "Princeton University (princeton)"),
      ("mou", "University of Missouri-Columbia (mou)"),
      ("mcgill", "McGill University (mcgill)"),
      ("umd", "University of Maryland (umd)"),
      ("harvard", "Harvard University (harvard)"),
      ("ucsd", "University of California, San Diego (ucsd)"),
      ("wau", "University of Washington (wau)"),
      ("aub", "American University of Beirut (aub)"),
      ("uf", "State University System of Florida (uf)"),
      ("bc", "Boston College (bc)"),
      ("ucla", "University of California, Los Angeles (ucla)"),
      ("clark", "Clark Art Institute (clark)"),
      ("ucm", "Universidad Complutense de Madrid (ucm)"),
      ("upenn", "University of Pennsylvania (upenn)"),
      ("chtanc", "National Central Library of Taiwan (chtanc)"),
      ("uq", "The University of Queensland (uq)")]),
   ("format",
     [("http://id.loc.gov/ontologies/bibframe/Text", "Text"),
      ("http://id.loc.gov/ontologies/bibframe/NotatedMusic", "NotatedMusic"),
      ("http://id.loc.gov/ontologies/bibframe/Cartography", "Cartography"),
      ("http://id.loc.gov/ontologies/bibframe/Text http://id.loc.gov/ontologies/bibframe/Audio", "Text Audio"),
      ("http://id.loc.gov/ontologies/bibframe/NotatedMusic http://id.loc.gov/ontologies/bibframe/Audio", "NotatedMusic Audio"),
      ("http://id.loc.gov/ontologies/bibframe/MixedMaterial", "MixedMaterial"),
      ("http://id.loc.gov/ontologies/bibframe/StillImage", "StillImage"),
      ("http://id.loc.gov/ontologies/bibframe/Audio", "Audio")]),
   ("htsource",
     [("MIU", "University of Michigan (MIU)"),
      ("NRLF", "UC Northern Regional Library Facility (NRLF)"),
      ("HVD", "Harvard University (HVD)"),
      ("UIUC", "University of Illinois at Urbana-Champaign (UIUC)"),
      ("UMN", "University of Minnesota (UMN)"),
      ("UVA", "University of Virginia (UVA)"),
      ("COO", "Cornell University (COO)"),
      ("WU", "University of Wisconsin (WU)"),
      ("INU", "Indiana University (INU)"),
      ("UCSD", "University of California, San Diego (UCSD)"),
      ("TXU", "University of Texas, Austin (TXU)"),
      ("PST", "Pennsylvania State University (PST)"),
      ("NYP", "New York Public Library (NYP)"),
      ("OSU", "The Ohio State University (OSU)"),
      ("NJP", "Princeton University (NJP)"),
      ("UCLA", "University of California, Los Angeles (UCLA)"),
      ("UCSC", "University of California, Santa Cruz (UCSC)"),
      ("UCBK", "University of California, Berkeley (UCBK)"),
      ("NWU", "Northwestern University (NWU)"),
      ("SRLF", "UC Southern Regional Library Facility (SRLF)"),
      ("UCR", "University of California, Riverside (UCR)"),
      ("CHI", "University of Chicago (CHI)"),
      ("UCM", "Universidad de Complutense de Madrid (UCM)"),
      ("ILOC", "Library of Congress (ILOC)"),
      ("NNC", "Columbia University (NNC)"),
      ("ISRLF", "UC Southern Regional Library Facility (ISRLF)"),
      ("KEIO", "Keio University (KEIO)"),
      ("IUIUC", "University of Illinois at Urbana-Champaign (IUIUC)"),
      ("INRLF", "INRLF"),
      ("MSU", "Michigan State University (MSU)"),
      ("AEU", "University of Alberta (AEU)"),
      ("IAU", "University of Iowa (IAU)"),
      ("GWLA", "GWLA"),
      ("GRI", "GRI"),
      ("PUR", "Purdue University (PUR)"),
      ("UCD", "University of California, Davis (UCD)"),
      ("IUNC", "University of North Carolina at Chapel Hill (IUNC)"),
      ("INNC", "Columbia University (INNC)"),
      ("YALE", "Yale University (YALE)"),
      ("MU", "University of Massachusetts Amherst (MU)"),
      ("IDUKE", "Duke University (IDUKE)"),
      ("UCI", "UCI"),
      ("IUFL", "University of Florida (IUFL)"),
      ("UIUCL", "University of Illinois at Urbana-Champaign (UIUCL)"),
      ("IBC", "Boston College (IBC)"),
      ("TXCM", "Texas A&M University (TXCM)"),
      ("UMDB", "UMDB"),
      ("CTU", "University of Connecticut (CTU)"),
      ("IUCD", "University of California, Davis (IUCD)"),
      ("INCSU", "North Carolina State University (INCSU)"),
      ("UCSF", "University of California, San Francisco (UCSF)"),
      ("GEU", "Emory University (GEU)"),
      ("IPST", "Pennsylvania State University (IPST)"),
      ("MOU", "University of Missouri, Columbia (MOU)"),
      ("NCWSW", "Wake Forest University (NCWSW)"),
      ("MMET", "Tufts University (MMET)"),
      ("QMM", "McGill University (QMM)"),
      ("UCSB", "University of California, Santa Barbara (UCSB)"),
      ("UMLAW", "UMLAW"),
      ("MDU", "University of Maryland (MDU)"),
      ("WAU", "University of Washington (WAU)"),
      ("UMBUS", "UMBUS"),
      ("IUCLA", "University of California, Los Angeles (IUCLA)"),
      ("LEBAU", "American University of Beirut (LEBAU)"),
      ("UFDC", "University of Florida (UFDC)"),
      ("AZTES", "Arizona State University (AZTES)"),
      ("FMU", "University of Miami (FMU)"),
      ("MWICA", "Clark Art Institute (MWICA)"),
      ("PU", "University of Pennsylvania, Van Pelt-Dietrich Library (PU)"),
      ("AUBRU", "University of Queensland, Saint Lucia (AUBRU)")])]

/-- `BWResults.frame(index, drop_zeros, drop_unknowns)` (core.py lines
278-717): materialize `tolist()` into a DataFrame, coerce dtypes, optionally
drop blacklisted rows, substitute human-readable labels (the source also
prints `df.columns` here — an output side effect with no bearing on the
result), set the group index (or select the group∪counttype columns), then
drop all-zero rows if asked and sort by the count-type columns descending. -/
def frame (st : BWResultsState) (index drop_zeros drop_unknowns : Bool) :
    Option IFrame := do
  let recs ← tolist st
  let df := dfFromRecords recs
  let df ← coerceColumns st.dtypes df
  let df := if drop_unknowns then dropUnknownRows df else df
  let df := replaceColumns
    (map_to_human_readable.filter (fun m => df.cols.contains m.1)) df
  let df2 ← if st.groups.length > 0 ∧ index then setIndex df st.groups
            else selectColumns df (st.groups ++ st.counttype)
  let df3 := if drop_zeros then dropZeroRows df2 else df2
  sortValuesDesc df3 st.counttype

/-- `BWResults.dataframe()`: alias for `frame` with its default arguments
(`index=True, drop_zeros=False, drop_unknowns=False`). -/
def dataframe (st : BWResultsState) : Option IFrame :=
  frame st true false false

/-- `.index.tolist()`: the index entries of a frame in row order (scalars
for a single-level index, tuples for a multi-level one; both are modelled as
the list of index values). -/
def indexTolist (fr : IFrame) : List (List Cell) :=
  fr.rows.map Prod.fst

/-! ## The query model: `BWQuery` (core.py lines 28-257). -/

/-- The mutable state of a `BWQuery`: the working spec (`self.json`, whose
`database` key may be absent, hence `Option`), the lazily fetched field
schema `self._fields` (its claims-relevant columns `name` and `type`), the
derived dtype map, and the per-field value cache. -/
structure BWQueryState where
  search_limits : List Pair
  groups : StrOrList
  counttype : StrOrList
  database : Option PyVal
  _fields : Option (List (String × String))
  _dtypes : List (String × String)
  _field_cache : List (String × List (List Cell))

/-- The accepted group names when the field schema is known
(`BWQuery._validate_groups`): raw names, `__id`-suffixed, `*`-prefixed, and
both. -/
def acceptedGroupNames (rows : List (String × String)) : List String :=
  let names := rows.map Prod.fst
  names ++ names.map (fun n => n ++ "__id") ++
    names.map (fun n => "*" ++ n) ++ names.map (fun n => "*" ++ n ++ "__id")

/-- The accepted search-limit keys when the field schema is known
(`BWQuery._validate_search_limits`): raw names, `__id`-suffixed, and the
literal `word`. -/
def acceptedLimitNames (rows : List (String × String)) : List String :=
  let names := rows.map Prod.fst
  names ++ names.map (fun n => n ++ "__id") ++ ["word"]

/-- `np.setdiff1d(a, b)`: the sorted unique values of `a` that are not in
`b`. -/
def setdiff1d (a b : List String) : List String :=
  pySort (fun x y => x ≤ y) ((a.filter (fun x => !b.contains x)).dedup)

/-- `BWQuery._validate_groups` (core.py lines 120-129): with a known schema,
any requested group outside the accepted set raises a KeyError naming the
offending fields; without a schema the check is skipped. -/
def _validate_groups (st : BWQueryState) (value : List String) :
    Except PyErr Unit :=
  match st._fields with
  | none => .ok ()
  | some rows =>
    let badgroups := setdiff1d value (acceptedGroupNames rows)
    if badgroups.length > 0 then
      .error (.keyError ("The following groups are not supported in this BW: "
        ++ String.intercalate ", " badgroups))
    else .ok ()

/-- The `groups` property setter (core.py lines 115-118): validate, then
store.  The returned pair is (raised exception or unit, the state as the
caller observes it afterwards). -/
def groupsSetter (st : BWQueryState) (value : List String) :
    Except PyErr Unit × BWQueryState :=
  match _validate_groups st value with
  | .error e => (.error e, st)
  | .ok _ => (.ok (), { st with groups := .list value })

/-- `BWQuery._validate_search_limits` (core.py lines 151-162): with a known
schema, unknown keys raise a KeyError naming every offender; independently of
the schema, a `word` key whose value is not a list raises a TypeError. -/
def _validate_search_limits (st : BWQueryState) (value : List Pair) :
    Except PyErr Unit := do
  (match st._fields with
   | none => Except.ok ()
   | some rows =>
     let badgroups := setdiff1d (value.map Prod.fst) (acceptedLimitNames rows)
     if badgroups.length > 0 then
       Except.error (.keyError
         ("The following search_limit fields are not supported in this BW: "
           ++ String.intercalate ", " badgroups))
     else Except.ok ())
  match pyDictGet value "word" with
  | some (.list _) => Except.ok ()
  | some _ => Except.error (.typeError
      "word value needs to be a list, even if there is only one word.")
  | none => Except.ok ()

/-- The `search_limits` property setter (core.py lines 146-149): validate,
then store. -/
def searchLimitsSetter (st : BWQueryState) (value : List Pair) :
    Except PyErr Unit × BWQueryState :=
  match _validate_search_limits st value with
  | .error e => (.error e, st)
  | .ok _ => (.ok (), { st with search_limits := value })

/-- `BWQuery.fields()` (core.py lines 173-187): return the cached schema; on
first call fetch it (the transport collaborator's decoded reply is the
`server` argument), store it, and derive the name→type dtype map
(`df[['name','type']].set_index('name').to_dict()['type']`, i.e. last value
wins per name).  The third component counts the fetches the call performed. -/
def fieldsMethod (st : BWQueryState) (server : List (String × String)) :
    List (String × String) × BWQueryState × Nat :=
  match st._fields with
  | some f => (f, st, 0)
  | none =>
    let df := server
    (df, { st with _fields := some df, _dtypes := pyDict df }, 1)

/-- The endpoint-resolution step of `BWQuery.__init__` (core.py lines 60-66):
a truthy explicit argument wins, else a configured global `endpoint`, else
`NameError`. -/
def resolveEndpoint (endpoint : Option PyVal) (g : List Pair) :
    Except PyErr PyVal :=
  if pyTruthy (endpoint.getD .pnone) then .ok (endpoint.getD .pnone)
  else if pyDictHas g "endpoint" then .ok ((pyDictGet g "endpoint").getD .pnone)
  else .error (.nameError
    "No endpoint. Provide to BWQuery on initialization or set globally.")

/-- The database-resolution step of `BWQuery.__init__` (core.py lines 68-75):
a truthy explicit argument is written into the spec; else, when the spec has
no `database` key and the globals do, the global value is copied in.  The
final guard `if not self.json['database']:` reads the key unconditionally —
when it is still absent that read raises `KeyError('database')` before the
intended `NameError` can be reached; when it is present but falsy the
`NameError` is raised. -/
def resolveDatabase (database : Option PyVal) (jsonDatabase : Option PyVal)
    (g : List Pair) : Except PyErr PyVal :=
  let jdb : Option PyVal :=
    if pyTruthy (database.getD .pnone) then database
    else if jsonDatabase.isNone ∧ pyDictHas g "database" then
      pyDictGet g "database"
    else jsonDatabase
  match jdb with
  | none => .error (.keyError "database")
  | some v =>
    if !pyTruthy v then
      .error (.nameError ("No database specified. Provide to BWQuery "
        ++ "on initialization as an arg or as part of "
        ++ "the query, or set it globally."))
    else .ok v

/-- `set_options.__init__(**kwargs)` (core.py lines 17-19): snapshot the
process-wide `_globals` into `self.old`, then install the overrides.  Returns
(the new globals, the snapshot). -/
def setOptionsEnter (g kwargs : List Pair) : List Pair × List Pair :=
  (pyDictUpdate g kwargs, g)

/-- `set_options.__exit__` (core.py lines 24-26): `_globals.clear()` then
`_globals.update(self.old)` — the current contents are discarded wholesale
and the snapshot is re-installed. -/
def setOptionsExit (_current old : List Pair) : List Pair :=
  pyDictUpdate [] old

/-- `BWQuery.limited_field_values(field)` (core.py lines 216-232): deep-copy
the current spec, drop any `word` search limit (that copy only shapes the
outgoing request, which the external transport collaborator answers with
`response`), append `field` to the groups, wrap the reply in a `BWResults`,
take `.dataframe().sort_values('TextCount', ascending=False).index.tolist()`,
and cache it.  The method body has no `return` statement, so the call itself
evaluates to Python `None` — hence the second component is `none`. -/
def limited_field_values (st : BWQueryState) (field : String)
    (response : BWNode) :
    Option (BWQueryState × Option (List (List Cell))) := do
  let _q_search_limits := pyDictDelSafe st.search_limits "word"
  let qgroups : List String :=
    match st.groups with
    | .list l => l ++ [field]
    | .str s => [s, field]
  let res := mkBWResults response (.list qgroups) st.counttype []
  let fr ← dataframe res
  let sorted ← sortValuesDesc fr ["TextCount"]
  let values := indexTolist sorted
  pure ({ st with _field_cache := pyDictSet st._field_cache field values },
        none)

/-! ## A heap-level model of `_expand`'s mutable default argument.

`_expand` is declared `def _expand(self, o, grouplist, counttypes,
collector=[])`: the default `[]` is one Python list object, created once at
definition time and shared by every call that omits `collector`.  To settle
whether results can leak from one expansion into another through that object,
the function is re-run here against an explicit heap of list objects: every
Python list expression allocates (`collector + [item]`, `collector + l` build
fresh lists), and the statements of the body are translated one for one.  The
default object's cell is only ever read, a fact the theorems below make
explicit. -/

abbrev Addr := Nat
abbrev Heap := List (List Pair)

/-- Read a list object from the heap. -/
def readH (h : Heap) (a : Addr) : List Pair := h.getD a []

/-- Allocate a fresh list object. -/
def allocH (h : Heap) (v : List Pair) : Heap × Addr := (h ++ [v], h.length)

mutual

/-- `_expand` with the `collector` argument given as a heap address.
`dict(collector + l)` reads `collector`; `collector + [item]` allocates a
fresh list for the recursive call.  No statement of the body writes an
existing cell, so the heap only grows. -/
def expandH (h : Heap) (o : BWNode) (grouplist counttypes : List String)
    (collAddr : Addr) : Option (List Rec) × Heap :=
  match grouplist with
  | [] =>
    let vals : List PyVal :=
      match o with
      | .leaf cs => cs.map (fun n => PyVal.num n)
      | .node ch => ch.map (fun p => PyVal.str p.1)
    ((pairCounts counttypes vals).map
        (fun l => [pyDict (readH h collAddr ++ l)]), h)
  | g :: gs =>
    match o with
    | .leaf _ => (none, h)
    | .node ch => expandHItems h ch g gs counttypes collAddr

/-- The `for k, v in o.items()` loop of `expandH`. -/
def expandHItems (h : Heap) (ch : List (String × BWNode)) (g : String)
    (gs counttypes : List String) (collAddr : Addr) :
    Option (List Rec) × Heap :=
  match ch with
  | [] => (some [], h)
  | (k, v) :: rest =>
    let alloc := allocH h (readH h collAddr ++ [(g, PyVal.str k)])
    match expandH alloc.1 v gs counttypes alloc.2 with
    | (none, h2) => (none, h2)
    | (some l1, h2) =>
      match expandHItems h2 rest g gs counttypes collAddr with
      | (none, h3) => (none, h3)
      | (some l2, h3) => (some (l1 ++ l2), h3)

end

/-- `tolist` at the heap level: the omitted `collector` argument means the
call uses the shared default object at `defAddr`. -/
def tolistH (st : BWResultsState) (h : Heap) (defAddr : Addr) :
    Option (List Rec) × Heap :=
  if hasDataKey st._json then
    match dataValue st._json with
    | some d => expandH h d st.groups st.counttype defAddr
    | none => (none, h)
  else
    expandH h st._json st.groups st.counttype defAddr

/-! ## Concrete fixtures used by the claims. -/

/-- The worked example of the spec (§8): the raw response
`{"a1": {"b1": [5], "b2": [0]}, "a2": {"b1": [3]}}`. -/
def exampleResponse : BWNode :=
  .node [("a1", .node [("b1", .leaf [5]), ("b2", .leaf [0])]),
         ("a2", .node [("b1", .leaf [3])])]

/-- A query state whose fetched schema knows the single field `lang`. -/
def schemaState : BWQueryState :=
  { search_limits := []
    groups := .list []
    counttype := .list ["TextCount", "WordCount"]
    database := some (.str "db")
    _fields := some [("lang", "character")]
    _dtypes := [("lang", "character")]
    _field_cache := [] }

/-- A query state with no schema fetched, empty groups, and a `word` search
limit. -/
def freshState : BWQueryState :=
  { search_limits := [("word", .list [.str "dog"])]
    groups := .list []
    counttype := .list ["TextCount", "WordCount"]
    database := some (.str "db")
    _fields := none
    _dtypes := []
    _field_cache := [] }

/-- A small results instance: response `{"x": [1]}`, `groups=["G"]`,
`counttype=["TextCount"]`. -/
def tinyResults : BWResultsState :=
  mkBWResults (.node [("x", .leaf [1])]) (.list ["G"]) (.list ["TextCount"]) []

/-! ## Helper lemmas. -/

theorem pyDictSet_of_not_mem {α : Type} (d : List (String × α)) (k : String)
    (v : α) (h : k ∉ d.map Prod.fst) : pyDictSet d k v = d ++ [(k, v)] := by
  have hany : d.any (fun p => p.1 = k) = false := by
    rw [List.any_eq_false]
    intro p hp
    simp only [decide_eq_true_eq]
    intro hk
    exact h (hk ▸ List.mem_map_of_mem Prod.fst hp)
  simp [pyDictSet, hany]

theorem pyDictUpdate_of_disjoint {α : Type} (l : List (String × α)) :
    ∀ acc : List (String × α), (l.map Prod.fst).Nodup →
      (∀ k ∈ l.map Prod.fst, k ∉ acc.map Prod.fst) →
      pyDictUpdate acc l = acc ++ l := by
  induction l with
  | nil => intro acc _ _; simp [pyDictUpdate]
  | cons p rest ih =>
    intro acc hnd hdisj
    have hnd2 : p.1 ∉ rest.map Prod.fst ∧ (rest.map Prod.fst).Nodup := by
      rw [List.map_cons] at hnd
      exact List.nodup_cons.mp hnd
    have hstep : pyDictUpdate acc (p :: rest) =
        pyDictUpdate (pyDictSet acc p.1 p.2) rest := rfl
    have hset : pyDictSet acc p.1 p.2 = acc ++ [p] := by
      rw [pyDictSet_of_not_mem acc p.1 p.2 (hdisj p.1 (by simp))]
    rw [hstep, hset, ih (acc ++ [p])]
    · simp
    · exact hnd2.2
    · intro k hk
      have hkp : k ≠ p.1 := fun he => hnd2.1 (he ▸ hk)
      have hka : k ∉ acc.map Prod.fst := hdisj k (by simp [hk])
      simp only [List.map_append, List.map_cons, List.map_nil, List.mem_append,
        List.mem_cons, List.not_mem_nil, or_false]
      rintro (hmem | he)
      · exact hka hmem
      · exact hkp he

theorem pyDict_of_nodup_keys {α : Type} (l : List (String × α))
    (h : (l.map Prod.fst).Nodup) : pyDict l = l := by
  have : pyDict l = pyDictUpdate [] l := rfl
  rw [this, pyDictUpdate_of_disjoint l [] h (by simp)]
  simp

theorem pairCounts_eq_zip :
    ∀ (vs : List PyVal) (cs : List String), vs.length ≤ cs.length →
      pairCounts cs vs = some (cs.zip vs)
  | [], cs, _ => by cases cs <;> simp [pairCounts]
  | v :: vs, [], h => by simp at h
  | v :: vs, c :: cs, h => by
    simp [pairCounts, pairCounts_eq_zip vs cs (by simpa using h)]

theorem mem_insertSorted {α : Type} (le : α → α → Bool) (x y : α) :
    ∀ l : List α, y ∈ insertSorted le x l ↔ y = x ∨ y ∈ l := by
  intro l
  induction l with
  | nil => simp [insertSorted]
  | cons z zs ih =>
    by_cases h : le x z = true
    · simp [insertSorted, h]
    · simp [insertSorted, h, ih]
      tauto

theorem mem_pySort {α : Type} (le : α → α → Bool) (y : α) :
    ∀ l : List α, y ∈ pySort le l ↔ y ∈ l := by
  intro l
  induction l with
  | nil => simp [pySort]
  | cons x xs ih => simp [pySort, mem_insertSorted, ih]

theorem mem_setdiff1d (x : String) (a b : List String) :
    x ∈ setdiff1d a b ↔ x ∈ a ∧ x ∉ b := by
  unfold setdiff1d
  rw [mem_pySort, List.mem_dedup, List.mem_filter]
  simp

/-- Well-shaped expansion: with `gl.length` levels of nesting and leaves of
`ct.length` counts, `_expand` succeeds, emits one record per leaf of the
response, and — when the collector keys, group names and count-type names are
pairwise distinct — every record has exactly `collector + groups +
counttypes` many entries (the `dict(collector + l)` constructor collapses
duplicate keys otherwise). -/
theorem _expand_spec (ct : List String) :
    ∀ (gl : List String) (o : BWNode) (coll : List Pair),
      wellShapedB o gl.length ct.length = true →
      (coll.map Prod.fst ++ (gl ++ ct)).Nodup →
      ∃ recs, _expand o gl ct coll = some recs ∧
        recs.length = countLeaves o ∧
        ∀ r ∈ recs, r.length = coll.length + gl.length + ct.length := by
  intro gl
  induction gl with
  | nil =>
    intro o coll hw hnd
    cases o with
    | node ch => simp [wellShapedB] at hw
    | leaf cs =>
      have hlen : cs.length = ct.length := by simpa [wellShapedB] using hw
      refine ⟨[pyDict (coll ++ ct.zip (cs.map (fun n => PyVal.num n)))],
        ?_, ?_, ?_⟩
      · simp [_expand, pairCounts_eq_zip (cs.map (fun n => PyVal.num n)) ct
          (by simp [hlen])]
      · simp [countLeaves]
      · intro r hr
        rw [List.mem_singleton] at hr
        subst hr
        have hkeys : ((coll ++ ct.zip (cs.map (fun n => PyVal.num n))).map
            Prod.fst).Nodup := by
          rw [List.map_append, List.map_fst_zip]
          · simpa using hnd
          · simp [hlen]
        rw [pyDict_of_nodup_keys _ hkeys]
        simp [hlen]
  | cons g gs ih =>
    intro o coll hw hnd
    cases o with
    | leaf cs => simp [wellShapedB] at hw
    | node ch =>
      have hw2 : wellShapedChildrenB ch gs.length ct.length = true := by
        rw [show (g :: gs).length = gs.length + 1 from rfl] at hw
        simp [wellShapedB, Bool.and_eq_true] at hw
        exact hw.2
      have inner : ∀ ch',
          wellShapedChildrenB ch' gs.length ct.length = true →
          ∃ recs, _expandItems ch' g gs ct coll = some recs ∧
            recs.length = countLeavesChildren ch' ∧
            ∀ r ∈ recs,
              r.length = coll.length + (gs.length + 1) + ct.length := by
        intro ch'
        induction ch' with
        | nil =>
          intro _
          exact ⟨[], by simp [_expandItems], by simp [countLeavesChildren],
            by simp⟩
        | cons p rest ihr =>
          intro hwc
          obtain ⟨k, v⟩ := p
          simp only [wellShapedChildrenB, Bool.and_eq_true] at hwc
          have hnd' : ((coll ++ [(g, PyVal.str k)]).map Prod.fst ++
              (gs ++ ct)).Nodup := by
            simpa [List.append_assoc] using hnd
          obtain ⟨r1, he1, hl1, hr1⟩ := ih v (coll ++ [(g, PyVal.str k)])
            hwc.1 hnd'
          obtain ⟨r2, he2, hl2, hr2⟩ := ihr hwc.2
          refine ⟨r1 ++ r2, ?_, ?_, ?_⟩
          · simp [_expandItems, he1, he2]
          · simp [countLeavesChildren, hl1, hl2]
          · intro r hr
            rcases List.mem_append.mp hr with h1 | h2
            · have := hr1 r h1
              simp only [List.length_append, List.length_cons,
                List.length_nil] at this
              omega
            · exact hr2 r h2
      obtain ⟨recs, he, hl, hr⟩ := inner ch hw2
      exact ⟨recs, by simp [_expand, he], by simp [countLeaves, hl],
        by simpa using hr⟩

theorem readH_append (h ext : Heap) (a : Addr) (ha : a < h.length) :
    readH (h ++ ext) a = readH h a := by
  simp [readH, List.getD, List.getElem?_append, ha]

theorem readH_snoc (h : Heap) (v : List Pair) :
    readH (h ++ [v]) h.length = v := by
  simp [readH, List.getD_append_right _ _ _ _ (le_refl h.length)]

/-- Running `_expand` only allocates: the heap after a call extends the heap
before it, so every pre-existing list object — the shared default collector
included — keeps its contents. -/
theorem expandH_grows (ct : List String) :
    ∀ (gl : List String) (o : BWNode) (h : Heap) (a : Addr),
      ∃ ext, (expandH h o gl ct a).2 = h ++ ext := by
  intro gl
  induction gl with
  | nil =>
    intro o h a
    exact ⟨[], by cases o <;> simp [expandH]⟩
  | cons g gs ih =>
    intro o h a
    cases o with
    | leaf cs => exact ⟨[], by simp [expandH]⟩
    | node ch =>
      have inner : ∀ (ch' : List (String × BWNode)) (h' : Heap) (a' : Addr),
          ∃ ext, (expandHItems h' ch' g gs ct a').2 = h' ++ ext := by
        intro ch'
        induction ch' with
        | nil => intro h' a'; exact ⟨[], by simp [expandHItems]⟩
        | cons p rest ihr =>
          intro h' a'
          obtain ⟨k, v⟩ := p
          rcases hcall : expandH (h' ++ [readH h' a' ++ [(g, PyVal.str k)]])
            v gs ct h'.length with ⟨res1, h2⟩
          obtain ⟨e1, he1⟩ := ih v
            (h' ++ [readH h' a' ++ [(g, PyVal.str k)]]) h'.length
          rw [hcall] at he1
          dsimp only at he1
          cases res1 with
          | none =>
            refine ⟨[readH h' a' ++ [(g, PyVal.str k)]] ++ e1, ?_⟩
            simp only [expandHItems, allocH]
            rw [hcall]
            dsimp only
            rw [he1]
            simp
          | some l1 =>
            rcases hcall2 : expandHItems h2 rest g gs ct a' with ⟨res2, h3⟩
            obtain ⟨e2, he2⟩ := ihr h2 a'
            rw [hcall2] at he2
            dsimp only at he2
            refine ⟨[readH h' a' ++ [(g, PyVal.str k)]] ++ e1 ++ e2, ?_⟩
            simp only [expandHItems, allocH]
            rw [hcall]
            dsimp only
            rw [hcall2]
            cases res2 <;> (dsimp only; rw [he2, he1]; simp)
      obtain ⟨ext, hext⟩ := inner ch h a
      exact ⟨ext, by simpa [expandH] using hext⟩

/-- The heap-level `_expand` computes the pure `_expand` of the collector
object's contents: the collector is only read. -/
theorem expandH_fst (ct : List String) :
    ∀ (gl : List String) (o : BWNode) (h : Heap) (a : Addr), a < h.length →
      (expandH h o gl ct a).1 = _expand o gl ct (readH h a) := by
  intro gl
  induction gl with
  | nil =>
    intro o h a _
    cases o <;> simp [expandH, _expand]
  | cons g gs ih =>
    intro o h a ha
    cases o with
    | leaf cs => simp [expandH, _expand]
    | node ch =>
      have inner : ∀ (ch' : List (String × BWNode)) (h' : Heap) (a' : Addr),
          a' < h'.length →
          (expandHItems h' ch' g gs ct a').1 =
            _expandItems ch' g gs ct (readH h' a') := by
        intro ch'
        induction ch' with
        | nil => intro h' a' _; simp [expandHItems, _expandItems]
        | cons p rest ihr =>
          intro h' a' ha'
          obtain ⟨k, v⟩ := p
          have hsnoc : readH (h' ++ [readH h' a' ++ [(g, PyVal.str k)]])
              h'.length = readH h' a' ++ [(g, PyVal.str k)] := readH_snoc _ _
          have hlt : h'.length <
              (h' ++ [readH h' a' ++ [(g, PyVal.str k)]]).length := by simp
          have hfst1 := ih v (h' ++ [readH h' a' ++ [(g, PyVal.str k)]])
            h'.length hlt
          rw [hsnoc] at hfst1
          rcases hcall : expandH (h' ++ [readH h' a' ++ [(g, PyVal.str k)]])
            v gs ct h'.length with ⟨res1, h2⟩
          rw [hcall] at hfst1
          dsimp only at hfst1
          obtain ⟨e1, he1⟩ := expandH_grows ct gs v
            (h' ++ [readH h' a' ++ [(g, PyVal.str k)]]) h'.length
          rw [hcall] at he1
          dsimp only at he1
          have ha2 : a' < h2.length := by
            have hle : h'.length ≤ h2.length := by
              rw [he1]
              simp
            exact lt_of_lt_of_le ha' hle
          have hread2 : readH h2 a' = readH h' a' := by
            rw [he1, List.append_assoc, readH_append _ _ _ ha']
          cases res1 with
          | none =>
            simp only [expandHItems, allocH]
            rw [hcall]
            dsimp only
            simp only [_expandItems]
            rw [← hfst1]
            rfl
          | some l1 =>
            rcases hcall2 : expandHItems h2 rest g gs ct a' with ⟨res2, h3⟩
            have hrest := ihr h2 a' ha2
            rw [hcall2, hread2] at hrest
            dsimp only at hrest
            simp only [expandHItems, allocH]
            rw [hcall]
            dsimp only
            rw [hcall2]
            simp only [_expandItems]
            rw [← hfst1, ← hrest]
            cases res2 <;> rfl
      have := inner ch h a ha
      simpa [expandH, _expand] using this

/-! ## The claims. -/

/-- C1: expanding the raw response
`{"a1": {"b1": [5], "b2": [0]}, "a2": {"b1": [3]}}` with
`groups=["A","B"]` and `counttype=["TextCount"]`, as `tolist` invokes
`_expand`, yields exactly the three flat records
`{A:a1,B:b1,TextCount:5}`, `{A:a1,B:b2,TextCount:0}` and
`{A:a2,B:b1,TextCount:3}`, in that order. -/
theorem c1_tolist_roundtrip :
    tolist (mkBWResults exampleResponse (.list ["A", "B"])
        (.list ["TextCount"]) []) =
      some [[("A", .str "a1"), ("B", .str "b1"), ("TextCount", .num 5)],
            [("A", .str "a1"), ("B", .str "b2"), ("TextCount", .num 0)],
            [("A", .str "a2"), ("B", .str "b1"), ("TextCount", .num 3)]] := rfl

/-- C2 (counterexample): the claim as stated fails when a group name is
repeated.  `groups=["A","A"]`, `counttype=["TextCount"]` and the well-shaped
depth-2 response `{"x": {"y": [1]}}` produce the single record
`{A:y,TextCount:1}` of length 2 — not the claimed `N + count-type count = 3`
— because `dict(collector + l)` collapses the duplicate key `A`. -/
theorem c2_expansion_shape_counterexample :
    wellShapedB (.node [("x", .node [("y", .leaf [1])])]) 2 1 = true ∧
    _expand (.node [("x", .node [("y", .leaf [1])])]) ["A", "A"]
        ["TextCount"] [] =
      some [[("A", .str "y"), ("TextCount", .num 1)]] ∧
    ([("A", PyVal.str "y"), ("TextCount", PyVal.num 1)] : Rec).length ≠
      (["A", "A"] : List String).length + (["TextCount"] : List String).length :=
  ⟨rfl, rfl, by decide⟩

/-- C2 (amended): for every well-shaped raw response whose nesting depth
equals the number of group names, *provided the group names and count-type
names are pairwise distinct*, expansion succeeds and yields one flat record
per reachable group-value path, each with exactly `N` group entries plus one
entry per count type; and in the degenerate case `groups=[]`,
`counttype=["TextCount","WordCount"]`, response `[10, 200]`, it yields
exactly the one record `{TextCount:10, WordCount:200}`. -/
theorem c2_expansion_shape :
    (∀ (o : BWNode) (gl ct : List String),
      wellShapedB o gl.length ct.length = true →
      (gl ++ ct).Nodup →
      ∃ recs, _expand o gl ct [] = some recs ∧
        recs.length = countLeaves o ∧
        ∀ r ∈ recs, r.length = gl.length + ct.length) ∧
    tolist (mkBWResults (.leaf [10, 200]) (.list [])
        (.list ["TextCount", "WordCount"]) []) =
      some [[("TextCount", .num 10), ("WordCount", .num 200)]] := by
  constructor
  · intro o gl ct hw hnd
    obtain ⟨recs, h1, h2, h3⟩ := _expand_spec ct gl o [] hw (by simpa using hnd)
    exact ⟨recs, h1, h2, fun r hr => by simpa using h3 r hr⟩
  · rfl

/-- C2 (witness): the amended statement applied to the concrete well-shaped
response `{"x": [7], "y": [8]}` with `groups=["G"]`,
`counttype=["TextCount"]`. -/
theorem c2_expansion_shape_witness :
    wellShapedB (.node [("x", .leaf [7]), ("y", .leaf [8])]) 1 1 = true ∧
    (["G", "TextCount"] : List String).Nodup ∧
    ∃ recs, _expand (.node [("x", .leaf [7]), ("y", .leaf [8])]) ["G"]
        ["TextCount"] [] = some recs ∧
      recs.length = countLeaves (.node [("x", .leaf [7]), ("y", .leaf [8])]) ∧
      ∀ r ∈ recs, r.length = 2 := by
  refine ⟨rfl, by decide, ?_⟩
  simpa using c2_expansion_shape.1
    (.node [("x", .leaf [7]), ("y", .leaf [8])]) ["G"] ["TextCount"]
    rfl (by decide)

/-- C3: with a known field schema, setting `groups` (resp. `search_limits`)
to a value containing any name outside the accepted set — for groups the
union of raw names, `__id`-suffixed, `*`-prefixed and both; for search
limits raw names, `__id` variants and the literal `word` — raises a KeyError
whose bad-name list enumerates exactly the offending names (every offender
and nothing else), and the state the caller observes afterwards is unchanged
(both stored `groups` and `search_limits` included). -/
theorem c3_invalid_names_rejected (st : BWQueryState)
    (rows : List (String × String)) (gval : List String) (sval : List Pair)
    (hf : st._fields = some rows) :
    ((∃ x ∈ gval, x ∉ acceptedGroupNames rows) →
      groupsSetter st gval =
        (.error (.keyError
          ("The following groups are not supported in this BW: "
            ++ String.intercalate ", "
              (setdiff1d gval (acceptedGroupNames rows)))), st) ∧
      ∀ x, x ∈ setdiff1d gval (acceptedGroupNames rows) ↔
        x ∈ gval ∧ x ∉ acceptedGroupNames rows) ∧
    ((∃ x ∈ sval.map Prod.fst, x ∉ acceptedLimitNames rows) →
      searchLimitsSetter st sval =
        (.error (.keyError
          ("The following search_limit fields are not supported in this BW: "
            ++ String.intercalate ", "
              (setdiff1d (sval.map Prod.fst) (acceptedLimitNames rows)))), st) ∧
      ∀ x, x ∈ setdiff1d (sval.map Prod.fst) (acceptedLimitNames rows) ↔
        x ∈ sval.map Prod.fst ∧ x ∉ acceptedLimitNames rows) := by
  constructor
  · rintro ⟨x, hx, hnx⟩
    have hmem : x ∈ setdiff1d gval (acceptedGroupNames rows) :=
      (mem_setdiff1d x _ _).mpr ⟨hx, hnx⟩
    have hlen : 0 < (setdiff1d gval (acceptedGroupNames rows)).length :=
      List.length_pos.mpr (List.ne_nil_of_mem hmem)
    have hval : _validate_groups st gval = .error (.keyError
        ("The following groups are not supported in this BW: "
          ++ String.intercalate ", "
            (setdiff1d gval (acceptedGroupNames rows)))) := by
      simp [_validate_groups, hf, hlen]
    refine ⟨?_, fun y => mem_setdiff1d y _ _⟩
    simp [groupsSetter, hval]
  · rintro ⟨x, hx, hnx⟩
    have hmem : x ∈ setdiff1d (sval.map Prod.fst) (acceptedLimitNames rows) :=
      (mem_setdiff1d x _ _).mpr ⟨hx, hnx⟩
    have hlen :
        0 < (setdiff1d (sval.map Prod.fst) (acceptedLimitNames rows)).length :=
      List.length_pos.mpr (List.ne_nil_of_mem hmem)
    have hval : _validate_search_limits st sval = .error (.keyError
        ("The following search_limit fields are not supported in this BW: "
          ++ String.intercalate ", "
            (setdiff1d (sval.map Prod.fst) (acceptedLimitNames rows)))) := by
      simp [_validate_search_limits, hf, hlen, Bind.bind, Except.bind]
    refine ⟨?_, fun y => mem_setdiff1d y _ _⟩
    simp [searchLimitsSetter, hval]

/-- C3 (witness): with a schema knowing only `lang`, the group `bogus` and
the search-limit key `nope` are rejected with the state unchanged. -/
theorem c3_invalid_names_rejected_witness :
    groupsSetter schemaState ["bogus"] =
      (.error (.keyError
        "The following groups are not supported in this BW: bogus"),
        schemaState) ∧
    searchLimitsSetter schemaState [("nope", .str "x")] =
      (.error (.keyError
        ("The following search_limit fields are not supported in this BW: "
          ++ "nope")), schemaState) := by
  have h := c3_invalid_names_rejected schemaState [("lang", "character")]
    ["bogus"] [("nope", .str "x")] rfl
  have g1 := h.1 ⟨"bogus", by decide, by decide⟩
  have g2 := h.2 ⟨"nope", by decide, by decide⟩
  exact ⟨g1.1, g2.1⟩

/-- C4: for every query state — schema fetched or not — setting
`search_limits` to `{"word": "x"}` (a bare string) raises the TypeError
`word value needs to be a list...` and the observed state is unchanged,
while `{"word": ["x"]}` is accepted and stored. -/
theorem c4_word_must_be_list (st : BWQueryState) :
    searchLimitsSetter st [("word", .str "x")] =
      (.error (.typeError
        "word value needs to be a list, even if there is only one word."),
        st) ∧
    searchLimitsSetter st [("word", .list [.str "x"])] =
      (.ok (), { st with search_limits := [("word", .list [.str "x"])] }) := by
  have hword : ∀ rows : List (String × String),
      setdiff1d ["word"] (acceptedLimitNames rows) = [] := by
    intro rows
    have : ∀ x, x ∉ setdiff1d ["word"] (acceptedLimitNames rows) := by
      intro x hx
      rcases (mem_setdiff1d x _ _).mp hx with ⟨hx1, hx2⟩
      rw [List.mem_singleton] at hx1
      subst hx1
      exact hx2 (by simp [acceptedLimitNames])
    exact List.eq_nil_iff_forall_not_mem.mpr this
  constructor
  · have hval : _validate_search_limits st [("word", .str "x")] =
        .error (.typeError
          "word value needs to be a list, even if there is only one word.") := by
      cases hfld : st._fields with
      | none =>
        simp [_validate_search_limits, hfld, pyDictGet, Bind.bind, Except.bind]
      | some rows =>
        simp [_validate_search_limits, hfld, hword rows, pyDictGet,
          Bind.bind, Except.bind]
    simp [searchLimitsSetter, hval]
  · have hval : _validate_search_limits st [("word", .list [.str "x"])] =
        .ok () := by
      cases hfld : st._fields with
      | none =>
        simp [_validate_search_limits, hfld, pyDictGet, Bind.bind, Except.bind]
      | some rows =>
        simp [_validate_search_limits, hfld, hword rows, pyDictGet,
          Bind.bind, Except.bind]
    simp [searchLimitsSetter, hval]

/-- C5: constructing a query with no database argument, none embedded in the
raw spec, and none configured globally does fail — but by the unguarded
spec-dict read `self.json['database']`, i.e. with `KeyError('database')`,
not with the documented configuration `NameError`; the `NameError` branch is
reachable only when the key exists with a falsy value. -/
theorem c5_missing_database_keyerror :
    resolveDatabase none none [] = .error (.keyError "database") ∧
    resolveDatabase none (some (.str "")) [] =
      .error (.nameError ("No database specified. Provide to BWQuery "
        ++ "on initialization as an arg or as part of "
        ++ "the query, or set it globally.")) :=
  ⟨rfl, rfl⟩

/-- C6: on a state that has not fetched the field schema, the first
`fields()` call performs exactly one fetch, stores the fetched schema and
the derived name-to-type dtype map, and the second call performs no fetch
(whatever the server would now answer) and returns the cached schema with
the state unchanged. -/
theorem c6_fields_idempotent (st : BWQueryState)
    (r1 r2 : List (String × String)) (h : st._fields = none) :
    (fieldsMethod st r1).2.2 = 1 ∧
    (fieldsMethod st r1).1 = r1 ∧
    (fieldsMethod st r1).2.1._fields = some r1 ∧
    (fieldsMethod st r1).2.1._dtypes = pyDict r1 ∧
    (fieldsMethod (fieldsMethod st r1).2.1 r2).2.2 = 0 ∧
    (fieldsMethod (fieldsMethod st r1).2.1 r2).1 = (fieldsMethod st r1).1 ∧
    (fieldsMethod (fieldsMethod st r1).2.1 r2).2.1 = (fieldsMethod st r1).2.1 := by
  simp [fieldsMethod, h]

/-- C6 (witness): the idempotence statement at a concrete schema. -/
theorem c6_fields_idempotent_witness :
    freshState._fields = none ∧
    (fieldsMethod freshState [("lang", "character")]).2.2 = 1 ∧
    (fieldsMethod (fieldsMethod freshState [("lang", "character")]).2.1
      [("year", "integer")]).2.2 = 0 := by
  have h := c6_fields_idempotent freshState [("lang", "character")]
    [("year", "integer")] rfl
  exact ⟨rfl, h.1, h.2.2.2.2.1⟩

/-- C7: `frame` with `index=True, drop_zeros=True` on the expansion of the
worked example removes exactly the all-zero row `{A:a1,B:b2,TextCount:0}`
and returns the remaining rows sorted by TextCount descending: a1/b1 (5)
before a2/b1 (3). -/
theorem c7_frame_drop_zeros :
    frame (mkBWResults exampleResponse (.list ["A", "B"])
        (.list ["TextCount"]) []) true true false =
      some { indexNames := ["A", "B"], dataCols := ["TextCount"],
             rows := [([some (.str "a1"), some (.str "b1")], [some (.num 5)]),
                      ([some (.str "a2"), some (.str "b1")], [some (.num 3)])] } :=
  rfl

/-- C8: whatever overrides a configuration scope installed and whatever the
globals were mutated to inside the scope, exiting restores exactly the
pre-scope globals (their keys, `endpoint` and `database` included), so the
endpoint/database resolution of a subsequent construction is exactly what it
would have been before the scope. -/
theorem c8_scoped_configuration (g kwargs current : List Pair)
    (hg : (g.map Prod.fst).Nodup) :
    setOptionsExit current (setOptionsEnter g kwargs).2 = g ∧
    (∀ ep, resolveEndpoint ep
        (setOptionsExit current (setOptionsEnter g kwargs).2) =
      resolveEndpoint ep g) ∧
    (∀ db jdb, resolveDatabase db jdb
        (setOptionsExit current (setOptionsEnter g kwargs).2) =
      resolveDatabase db jdb g) := by
  have hexit : setOptionsExit current (setOptionsEnter g kwargs).2 = g := by
    show pyDictUpdate [] g = g
    simpa using pyDictUpdate_of_disjoint g [] hg (by simp)
  exact ⟨hexit, fun ep => by rw [hexit], fun db jdb => by rw [hexit]⟩

/-- C8 (witness): entering a scope that overrides `endpoint` and adds
`database`, then exiting from a mutated current state, restores the original
globals. -/
theorem c8_scoped_configuration_witness :
    setOptionsExit
        [("endpoint", .str "http://b"), ("database", .str "d2")]
        (setOptionsEnter [("endpoint", .str "http://a")]
          [("endpoint", .str "http://b"), ("database", .str "d2")]).2 =
      [("endpoint", .str "http://a")] :=
  (c8_scoped_configuration [("endpoint", .str "http://a")]
    [("endpoint", .str "http://b"), ("database", .str "d2")]
    [("endpoint", .str "http://b"), ("database", .str "d2")]
    (by simp)).1

/-- C9: `limited_field_values("lang")` on a state with empty groups and a
`word` search limit, answered by the server with
`{"eng": [3, 30], "fre": [7, 70]}`, computes the value list ordered by
TextCount descending (`fre` before `eng`) and stores it in the per-instance
field-value cache — but the call itself evaluates to `None` (the method body
has no `return` statement), not to the ordered list the claim says it
returns. -/
theorem c9_limited_field_values_returns_none :
    limited_field_values freshState "lang"
        (.node [("eng", .leaf [3, 30]), ("fre", .leaf [7, 70])]) =
      some ({ freshState with _field_cache :=
        [("lang", [[some (.str "fre")], [some (.str "eng")]])] }, none) ∧
    (none : Option (List (List Cell))) ≠
      some [[some (.str "fre")], [some (.str "eng")]] :=
  ⟨rfl, by simp⟩

/-- C10: result expansion is pure at its public interface.  With the shared
default collector object (created once, holding `[]`) modelled as a heap
cell that `tolist` uses whenever `collector` is omitted: a call returns
exactly the pure expansion of the instance's stored response, groups and
count types; it leaves the default object's contents (and every other
existing cell — the heap only grows) unchanged; hence an immediately
repeated call returns an equal record sequence and nothing leaks from one
expansion into another.  (`tolist`/`_expand` assign no instance attribute,
so the same immutable `r` describes the instance throughout.) -/
theorem c10_tolist_pure (r : BWResultsState) (h0 : Heap) (a : Addr)
    (ha : a < h0.length) (hinit : readH h0 a = []) :
    (tolistH r h0 a).1 = tolist r ∧
    readH (tolistH r h0 a).2 a = [] ∧
    (tolistH r (tolistH r h0 a).2 a).1 = tolist r ∧
    (tolistH r (tolistH r h0 a).2 a).1 = (tolistH r h0 a).1 := by
  have hfst : ∀ (h : Heap), a < h.length → readH h a = [] →
      (tolistH r h a).1 = tolist r := by
    intro h hah hr
    unfold tolistH tolist
    by_cases hd : hasDataKey r._json
    · simp only [hd, if_true]
      cases hdv : dataValue r._json with
      | none => rfl
      | some d => rw [expandH_fst r.counttype r.groups d h a hah, hr]
    · simp only [hd, Bool.false_eq_true, if_false]
      rw [expandH_fst r.counttype r.groups r._json h a hah, hr]
  have hgrow : ∀ (h : Heap), ∃ ext, (tolistH r h a).2 = h ++ ext := by
    intro h
    unfold tolistH
    by_cases hd : hasDataKey r._json
    · simp only [hd, if_true]
      cases hdv : dataValue r._json with
      | none => exact ⟨[], by simp⟩
      | some d => exact expandH_grows r.counttype r.groups d h a
    · simp only [hd, Bool.false_eq_true, if_false]
      exact expandH_grows r.counttype r.groups r._json h a
  obtain ⟨e1, he1⟩ := hgrow h0
  have ha1 : a < (tolistH r h0 a).2.length := by
    rw [he1]
    have hle : h0.length ≤ (h0 ++ e1).length := by simp
    exact lt_of_lt_of_le ha hle
  have hr1 : readH (tolistH r h0 a).2 a = [] := by
    rw [he1, readH_append _ _ _ ha, hinit]
  exact ⟨hfst h0 ha hinit, hr1, hfst _ ha1 hr1,
    by rw [hfst _ ha1 hr1, hfst h0 ha hinit]⟩

/-- C10 (witness): the purity statement run on the concrete instance
`tinyResults`, a one-cell heap holding the default collector `[]`. -/
theorem c10_tolist_pure_witness :
    (0 : Addr) < ([[]] : Heap).length ∧
    readH ([[]] : Heap) 0 = [] ∧
    ((tolistH tinyResults [[]] 0).1 = tolist tinyResults ∧
      readH (tolistH tinyResults [[]] 0).2 0 = [] ∧
      (tolistH tinyResults (tolistH tinyResults [[]] 0).2 0).1 =
        tolist tinyResults ∧
      (tolistH tinyResults (tolistH tinyResults [[]] 0).2 0).1 =
        (tolistH tinyResults [[]] 0).1) :=
  ⟨by decide, rfl, c10_tolist_pure tinyResults [[]] 0 (by decide) rfl⟩

end Bwypy
